import Mathlib

/-!
Verification development for the cross-platform service installer
(`lib/service.ts`, `lib/managers/{systemd,init,upstart,launchd,windows}.ts`).

Strings are modelled as `List Char`; JavaScript string operations
(`String.replace` with a string pattern, `includes`, `split`, template
interpolation of `undefined`) are reproduced on that type.  Each backend
manager is embedded as a function from its options record and an ambient
`World` (file existence, queued results of spawned commands, environment
variables, the runtime executable path) to a result together with a
chronological trace of side effects (writes, mkdirs, unlinks, spawns).
-/

/-- Strings of the embedded program. -/
abbrev Str := List Char

/-- Conversion from Lean string literals. -/
def chars (s : String) : Str := s.data

/-- Boolean prefix test (JS `startsWith`, also the matching step of `replace`). -/
def startsWith : Str → Str → Bool
  | [], _ => true
  | _ :: _, [] => false
  | a :: as, b :: bs => a == b && startsWith as bs

/-- Boolean substring test (JS `String.prototype.includes`). -/
def containsSub (pat : Str) : Str → Bool
  | [] => startsWith pat []
  | c :: cs => startsWith pat (c :: cs) || containsSub pat cs

/-- ECMAScript `GetSubstitution` for a pattern with no capture groups, as it
applies to every `String.prototype.replace` call of this program: in the
replacement string `$$` inserts `$`, `$&` inserts the matched substring, `$`
followed by the backquote inserts the part of the subject before the match,
`$` followed by the apostrophe inserts the part after it; any other `$`
sequence stays literal (with zero capture groups `$1`…`$99` are literal). -/
def expandRepl (matched before after : Str) : Str → Str
  | [] => []
  | [c] => [c]
  | c :: d :: rest =>
    if c = '$' then
      if d = '$' then '$' :: expandRepl matched before after rest
      else if d = '&' then matched ++ expandRepl matched before after rest
      else if d = Char.ofNat 96 then before ++ expandRepl matched before after rest
      else if d = Char.ofNat 39 then after ++ expandRepl matched before after rest
      else '$' :: d :: expandRepl matched before after rest
    else c :: expandRepl matched before after (d :: rest)

/-- Index of the first occurrence of `pat` in a string, if any. -/
def firstMatchPos? (pat : Str) : Str → Option Nat
  | [] => if startsWith pat [] then some 0 else none
  | c :: cs =>
    if startsWith pat (c :: cs) then some 0
    else
      match firstMatchPos? pat cs with
      | some n => some (n + 1)
      | none => none

/-- JS `String.prototype.replace` with a string pattern: replaces the first
occurrence of `pat` by `rep` (after `$`-pattern expansion of `rep`), leaves
the string unchanged when absent. -/
def replaceFirst (pat rep s : Str) : Str :=
  match firstMatchPos? pat s with
  | none => s
  | some i =>
    let before := s.take i
    let after := s.drop (i + pat.length)
    before ++ expandRepl pat before after rep ++ after

/-- Fuel-indexed worker for `replaceAll`; the fuel only makes the recursion
structural, `replaceAll` always supplies enough of it.  `pos` is the index of
the remaining suffix within the original subject, so that the `$`-pattern
expansion sees the right before/after context for each match. -/
def replaceAllFuel (pat rep orig : Str) : Nat → Nat → Str → Str
  | _, _, [] => []
  | 0, _, s => s
  | Nat.succ n, pos, c :: cs =>
    if pat ≠ [] ∧ startsWith pat (c :: cs) then
      expandRepl pat (orig.take pos) (orig.drop (pos + pat.length)) rep ++
        replaceAllFuel pat rep orig n (pos + pat.length) (cs.drop (pat.length - 1))
    else
      c :: replaceAllFuel pat rep orig n (pos + 1) cs

/-- JS `String.prototype.replace` with a `/…/g` regex on a literal pattern:
replaces every occurrence (never rescanning the inserted replacement), with
`$`-pattern expansion of the replacement at every match. -/
def replaceAll (pat rep s : Str) : Str :=
  replaceAllFuel pat rep s s.length 0 s

/-- JS `Array.prototype.join` with separator `sep`. -/
def joinSep (sep : Str) : List Str → Str
  | [] => []
  | [s] => s
  | s :: r => s ++ sep ++ joinSep sep r

/-- Concatenation of a list of strings (string `+=` in a loop). -/
def concatAll : List Str → Str
  | [] => []
  | s :: r => s ++ concatAll r

/-- JS `String.prototype.split` on a one-character separator. -/
def splitChar (sep : Char) : Str → List Str
  | [] => [[]]
  | c :: cs =>
    if c == sep then [] :: splitChar sep cs
    else
      match splitChar sep cs with
      | r :: rs => (c :: r) :: rs
      | [] => [[c]]

/-- `dirname` from `@std/path` on ordinary POSIX paths: everything before the
last separator, `.` when there is none, `/` for a file at the root. -/
def dirnameOf (s : Str) : Str :=
  match (s.reverse).dropWhile (fun c => c ≠ '/') with
  | [] => chars "."
  | _ :: tail => if tail = [] then chars "/" else tail.reverse

/-- JS template interpolation of a possibly-`undefined` string. -/
def interpOpt : Option Str → Str
  | some s => s
  | none => chars "undefined"

/-- JS truthiness of a possibly-`undefined` string (`undefined` and the empty
string are falsy). -/
def jsTruthy : Option Str → Bool
  | some s => !s.isEmpty
  | none => false

/-- JS `a || b` on possibly-`undefined` strings. -/
def jsOr (a b : Option Str) : Option Str :=
  if jsTruthy a then a else b

/-- JS `a ? a : b` on a possibly-`undefined` string against a present one. -/
def jsOrStr (a : Option Str) (b : Str) : Str :=
  match a with
  | some s => if s.isEmpty then b else s
  | none => b

/-! ## Data model -/

/-- Result of spawning an external command (`@cross/utils` `spawn`). -/
structure SpawnResult where
  code : Int
  stdout : Str
  stderr : Str
deriving DecidableEq

/-- Result of `stat` on a path (`none` models the call throwing). -/
structure FileMeta where
  isFile : Bool
  isDirectory : Bool
deriving DecidableEq

/-- Host OS family as tested by `detectInitSystem` (`linux` stands for every
OS that is neither macOS nor Windows). -/
inductive OSFamily
  | macOS
  | windowsOS
  | linux
deriving DecidableEq

/-- One manual step of a result (`ServiceManualStep` in `lib/result.ts`). -/
structure ManualStep where
  text : Str
  command : Option Str
deriving DecidableEq

/-- The `manualSteps` field as the managers actually populate it: `null`, a
`ServiceManualStep[]`, or (launchd) a plain string. -/
inductive ManualOut
  | nul
  | steps (l : List ManualStep)
  | txt (s : Str)
deriving DecidableEq

/-- `ServiceInstallResult` of `lib/result.ts`. -/
structure ServiceInstallResultM where
  servicePath : Option Str
  serviceFileContent : Str
  manualSteps : ManualOut
deriving DecidableEq

/-- `ServiceUninstallResult` of `lib/result.ts`. -/
structure ServiceUninstallResultM where
  servicePath : Option Str
  manualSteps : ManualOut
deriving DecidableEq

/-- `InstallServiceOptions` after `prepareConfig` has applied defaults. -/
structure InstallConfig where
  system : Bool
  name : Str
  cmd : Str
  user : Option Str
  home : Option Str
  cwd : Option Str
  path : Option (List Str)
  env : Option (List Str)

/-- `UninstallServiceOptions` after `prepareConfig` has applied defaults. -/
structure UninstallConfig where
  system : Bool
  name : Str
  home : Option Str

/-- `InstallServiceOptions` as supplied by the caller (fields may be absent). -/
structure InstallOptionsIn where
  system : Option Bool
  name : Option Str
  cmd : Str
  user : Option Str
  home : Option Str
  cwd : Option Str
  path : Option (List Str)
  env : Option (List Str)

/-- `UninstallServiceOptions` as supplied by the caller. -/
structure UninstallOptionsIn where
  system : Option Bool
  name : Option Str
  home : Option Str

/-- Ambient OS state consumed by the managers: file existence, the queue of
results the spawned commands will return (consumed in call order), the
runtime executable path, working directory, environment variables, the OS
family and PID-1 probe data for detection, and the path that
`mktempdir`/`mkdtemp` returns. -/
structure World where
  fileExists : Str → Bool
  spawns : List SpawnResult
  execPath : Str
  cwdDir : Str
  envPATH : Option Str
  envHOME : Option Str
  envUserprofile : Option Str
  envUSER : Option Str
  os : OSFamily
  statInitctl : Option FileMeta
  statEtcInit : Option FileMeta
  tempDir : Str
  runtimeIsDeno : Bool

/-- Side effects a call performs, in chronological order. -/
inductive Event
  | mkdirp (path : Str)
  | write (path content : Str)
  | unlinkE (path : Str)
  | spawnE (argv : List Str)
  | mktemp (stem : Str)
deriving DecidableEq

/-- Take the next queued spawn result (a default success when exhausted). -/
def popSpawn : List SpawnResult → SpawnResult × List SpawnResult
  | [] => ({ code := 0, stdout := [], stderr := [] }, [])
  | r :: rs => (r, rs)

/-- JS truthiness of `options.path?.length` / `options.env && options.env.length > 0`. -/
def lenTruthy : Option (List Str) → Bool
  | some l => !l.isEmpty
  | none => false

/-- JS truthiness of an optional array itself (`options.path ? … : …`): any
array, even an empty one, is truthy. -/
def arrTruthy : Option (List Str) → Bool
  | some _ => true
  | none => false

/-! ## Template renderers -/

/-- The `{{name}}` placeholder. -/
def phName : Str := chars "\x7b\x7bname\x7d\x7d"

/-- The `{{command}}` placeholder. -/
def phCommand : Str := chars "\x7b\x7bcommand\x7d\x7d"

/-- The `{{path}}` placeholder. -/
def phPath : Str := chars "\x7b\x7bpath\x7d\x7d"

/-- The `{{workingDirectory}}` placeholder. -/
def phWorkingDirectory : Str := chars "\x7b\x7bworkingDirectory\x7d\x7d"

/-- The `{{extraEnvs}}` placeholder. -/
def phExtraEnvs : Str := chars "\x7b\x7bextraEnvs\x7d\x7d"

/-- The `{{extraServiceContent}}` placeholder. -/
def phExtraServiceContent : Str := chars "\x7b\x7bextraServiceContent\x7d\x7d"

/-- The `{{wantedByTarget}}` placeholder. -/
def phWantedBy : Str := chars "\x7b\x7bwantedByTarget\x7d\x7d"

/-- `serviceFileTemplate` of `lib/managers/systemd.ts`. -/
def serviceFileTemplate : Str :=
  chars "[Unit]\nDescription=\x7b\x7bname\x7d\x7d (Deno Service)\n\n[Service]\nExecStart=/bin/sh -c \"\x7b\x7bcommand\x7d\x7d\"\nRestart=always\nRestartSec=30\nEnvironment=\x7b\x7bpath\x7d\x7d\n\x7b\x7bextraEnvs\x7d\x7d\nWorkingDirectory=\x7b\x7bworkingDirectory\x7d\x7d\n\x7b\x7bextraServiceContent\x7d\x7d\n\n[Install]\nWantedBy=\x7b\x7bwantedByTarget\x7d\x7d\n"

/-- The `Environment=K=V` lines accumulated by the env loop of
`SystemdService.generateConfig`. -/
def systemdEnvBlock (env : List Str) : Str :=
  concatAll (env.map (fun e => chars "Environment=" ++ e ++ chars "\n"))

/-- `SystemdService.generateConfig`. -/
def systemdGenerateConfig (o : InstallConfig) (w : World) : Str :=
  let runtimeDir := dirnameOf w.execPath
  let envPath := chars "PATH=" ++
    (if lenTruthy o.path then joinSep (chars ":") (o.path.getD []) ++ chars ":" ++ runtimeDir
     else runtimeDir)
  let workingDirectory := jsOrStr o.cwd w.cwdDir
  let s1 := replaceFirst phName o.name serviceFileTemplate
  let s2 := replaceFirst phCommand o.cmd s1
  let s3 := replaceFirst phPath envPath s2
  let s4 := replaceFirst phWorkingDirectory workingDirectory s3
  let s5 :=
    if o.system then
      replaceFirst phWantedBy (chars "multi-user.target")
        (replaceFirst phExtraServiceContent (chars "User=" ++ interpOpt o.user) s4)
    else
      replaceFirst phWantedBy (chars "default.target")
        (replaceFirst phExtraServiceContent [] s4)
  let extraEnvs := if lenTruthy o.env then systemdEnvBlock (o.env.getD []) else []
  replaceFirst phExtraEnvs extraEnvs s5

/-- `initScriptTemplate` of `lib/managers/init.ts`. -/
def initScriptTemplate : Str :=
  chars "#!/bin/sh\n### BEGIN INIT INFO\n# Provides:          \x7b\x7bname\x7d\x7d\n# Required-Start:    $remote_fs $syslog\n# Required-Stop:     $remote_fs $syslog\n# Default-Start:     2 3 4 5\n# Default-Stop:      0 1 6\n# Short-Description: \x7b\x7bname\x7d\x7d (Deno Service)\n# Description:       Start \x7b\x7bname\x7d\x7d service\n### END INIT INFO\n\nPATH=\x7b\x7bpath\x7d\x7d\n\x7b\x7bextraEnvs\x7d\x7d\n\n# Change the next line to match your installation\nDENO_COMMAND=\"\x7b\x7bcommand\x7d\x7d\"\n\ncase \"$1\" in\n  start)\n    echo \"Starting \x7b\x7bname\x7d\x7d...\"\n    $DENO_COMMAND &\n    echo $! > /var/run/\x7b\x7bname\x7d\x7d.pid\n    ;;\n  stop)\n    echo \"Stopping \x7b\x7bname\x7d\x7d...\"\n    PID=$(cat /var/run/\x7b\x7bname\x7d\x7d.pid)\n    kill $PID\n    rm /var/run/\x7b\x7bname\x7d\x7d.pid\n    ;;\n  restart)\n    $0 stop\n    $0 start\n    ;;\n  status)\n    if [ -e /var/run/\x7b\x7bname\x7d\x7d.pid ]; then\n      echo \"\x7b\x7bname\x7d\x7d is running\"\n    else\n      echo \"\x7b\x7bname\x7d\x7d is not running\"\n    fi\n    ;;\n  *)\n    echo \"Usage: $0 \x7bstart|stop|restart|status\x7d\"\n    exit 1\n    ;;\nesac\n\nexit 0\n"

/-- The raw `K=V` lines accumulated by the env loop of
`InitService.generateConfig`. -/
def initEnvBlock (env : List Str) : Str :=
  concatAll (env.map (fun e => e ++ chars "\n"))

/-- `InitService.generateConfig`. -/
def initGenerateConfig (o : InstallConfig) (w : World) : Str :=
  let runtimeDir := dirnameOf w.execPath
  let servicePath :=
    if lenTruthy o.path then joinSep (chars ":") (o.path.getD []) ++ chars ":" ++ runtimeDir
    else runtimeDir
  let s1 := replaceAll phName o.name initScriptTemplate
  let s2 := replaceFirst phCommand o.cmd s1
  let s3 := replaceFirst phPath servicePath s2
  let extraEnvs := if lenTruthy o.env then initEnvBlock (o.env.getD []) else []
  replaceFirst phExtraEnvs extraEnvs s3

/-- `upstartFileTemplate` of `lib/managers/upstart.ts`. -/
def upstartFileTemplate : Str :=
  chars "# \x7b\x7bname\x7d\x7d (Deno Service)\n\ndescription \"\x7b\x7bname\x7d\x7d Deno Service\"\nauthor \"Service user\"\n\nstart on (filesystem and net-device-up IFACE!=lo)\nstop on runlevel [!2345]\n\nrespawn\nrespawn limit 10 5\n\nenv PATH=\x7b\x7bpath\x7d\x7d\n\x7b\x7bextraEnvs\x7d\x7d\n\n# Change the next line to match your service installation\nenv SERVICE_COMMAND=\"\x7b\x7bcommand\x7d\x7d\"\n\nexec $SERVICE_COMMAND\n"

/-- The `env K=V` lines accumulated by the env loop of
`UpstartService.generateConfig`. -/
def upstartEnvBlock (env : List Str) : Str :=
  concatAll (env.map (fun e => chars "env " ++ e ++ chars "\n"))

/-- `UpstartService.generateConfig`. -/
def upstartGenerateConfig (o : InstallConfig) (w : World) : Str :=
  let defaultPath := w.envPATH.getD []
  let envPath :=
    if arrTruthy o.path then defaultPath ++ chars ":" ++ joinSep (chars ":") (o.path.getD [])
    else defaultPath
  let s1 := replaceAll phName o.name upstartFileTemplate
  let s2 := replaceFirst phCommand o.cmd s1
  let s3 := replaceFirst phPath envPath s2
  let extraEnvs := if lenTruthy o.env then upstartEnvBlock (o.env.getD []) else []
  replaceFirst phExtraEnvs extraEnvs s3

/-- `plistTemplate` of `lib/managers/launchd.ts`. -/
def plistTemplate : Str :=
  chars "<?xml version=\"1.0\" encoding=\"UTF-8\"?>\n<!DOCTYPE plist PUBLIC \"-//Apple//DTD PLIST 1.0//EN\" \"http://www.apple.com/DTDs/PropertyList-1.0.dtd\">\n<plist version=\"1.0\">\n  <dict>\n    <key>Label</key>\n    <string>\x7b\x7bname\x7d\x7d</string>\n    <key>ProgramArguments</key>\n    <array>\n\x7b\x7bcommand\x7d\x7d    </array>\n    <key>EnvironmentVariables</key>\n    <dict>\n      <key>PATH</key>\n      <string>\x7b\x7bpath\x7d\x7d</string>\n\x7b\x7bextraEnvs\x7d\x7d    </dict>\n    <key>WorkingDirectory</key>\n    <string>\x7b\x7bworkingDirectory\x7d\x7d</string>\n    <key>KeepAlive</key>\n    <true/>\n  </dict>\n</plist>\n"

/-- The `<key>…</key>/<string>…</string>` pairs accumulated by the env loop of
`LaunchdService.generateConfig`: each entry is split on `=` and only the
first two components are emitted (`envSplit[0]` and `envSplit[1]`). -/
def launchdEnvBlock (env : List Str) : Str :=
  concatAll (env.map (fun e =>
    let parts := splitChar '=' e
    chars "      <key>" ++ parts.getD 0 (chars "undefined") ++ chars "</key>\n      <string>" ++
      parts.getD 1 (chars "undefined") ++ chars "</string>\n"))

/-- `LaunchdService.generateConfig`. -/
def launchdGenerateConfig (o : InstallConfig) (w : World) : Str :=
  let commandArgs := splitChar ' ' o.cmd
  let servicePath :=
    (match o.path with
     | some l => joinSep (chars ":") l
     | none => chars "undefined") ++ chars ":" ++ interpOpt w.envPATH
  let workingDirectory := jsOrStr o.cwd w.cwdDir
  let s1 := replaceAll phName o.name plistTemplate
  let s2 := replaceAll phPath servicePath s1
  let s3 := replaceAll phWorkingDirectory workingDirectory s2
  let programArguments :=
    concatAll (commandArgs.map (fun a => chars "      <string>" ++ a ++ chars "</string>\n"))
  let s4 := replaceFirst phCommand programArguments s3
  let extraEnvs := if lenTruthy o.env then launchdEnvBlock (o.env.getD []) else []
  replaceFirst phExtraEnvs extraEnvs s4

/-- The `set "K=V"` lines accumulated by the env loop of
`WindowsService.generateConfig`. -/
def windowsEnvBlock (env : List Str) : Str :=
  concatAll (env.map (fun e => chars "set \"" ++ e ++ chars "\"\n"))

/-- `WindowsService.generateConfig`. -/
def windowsGenerateConfig (o : InstallConfig) (w : World) : Str :=
  let defaultPath := chars "%PATH%;" ++
    (if w.runtimeIsDeno then w.execPath ++ chars ";" ++ interpOpt o.home ++ chars "\\.deno\\bin"
     else [])
  let envPath :=
    if arrTruthy o.path then defaultPath ++ chars ";" ++ joinSep (chars ";") (o.path.getD [])
    else defaultPath
  let workingDirectory := jsOrStr o.cwd w.cwdDir
  chars "@echo off\n" ++
    chars "cd \"" ++ workingDirectory ++ chars "\"\n" ++
    chars "set \"PATH=" ++ envPath ++ chars "\"\n" ++
    (if lenTruthy o.env then windowsEnvBlock (o.env.getD []) else []) ++
    chars "deno run -A --unstable https://deno.land/x/windows_service@1.0.11/run.ts --serviceName " ++
    o.name ++ chars " -- " ++ o.cmd ++ chars "\n"

/-! ## Backend managers -/

/-- Builds a `ServiceInstallResultM`. -/
def mkInstallRes (p : Option Str) (content : Str) (ms : ManualOut) : ServiceInstallResultM :=
  { servicePath := p, serviceFileContent := content, manualSteps := ms }

/-- Builds a `ServiceUninstallResultM`. -/
def mkUninstallRes (p : Option Str) (ms : ManualOut) : ServiceUninstallResultM :=
  { servicePath := p, manualSteps := ms }

/-- Builds a `ManualStep`. -/
def mkStep (t : Str) (c : Option Str) : ManualStep :=
  { text := t, command := c }

/-- User-mode systemd unit path `${home}/.config/systemd/user/${name}.service`. -/
def systemdUserPath (home : Option Str) (name : Str) : Str :=
  interpOpt home ++ chars "/.config/systemd/user/" ++ name ++ chars ".service"

/-- System-mode systemd unit path `/etc/systemd/system/${name}.service`. -/
def systemdSystemPath (name : Str) : Str :=
  chars "/etc/systemd/system/" ++ name ++ chars ".service"

/-- The already-exists error message of `SystemdService.install`. -/
def sdExistsMsg (name p : Str) : Str :=
  chars "Service \x27" ++ name ++ chars "\x27 already exists in \x27" ++ p ++ chars "\x27."

/-- `["systemctl", system ? "" : "--user", "daemon-reload"]`. -/
def systemdReloadArgv (system : Bool) : List Str :=
  [chars "systemctl", if system then [] else chars "--user", chars "daemon-reload"]

/-- `["systemctl", system ? "" : "--user", "enable", name]`. -/
def systemdEnableArgv (system : Bool) (name : Str) : List Str :=
  [chars "systemctl", if system then [] else chars "--user", chars "enable", name]

/-- `["systemctl", system ? "" : "--user", "start", name]`. -/
def systemdStartArgv (system : Bool) (name : Str) : List Str :=
  [chars "systemctl", if system then [] else chars "--user", chars "start", name]

/-- The message `SystemdService.rollback` throws when its own daemon-reload
fails: the inner error is caught and re-thrown wrapped (the method throws,
it does not swallow its secondary failure). -/
def sdRollbackFailMsg (servicePath : Str) : Str :=
  chars "Failed to rollback changes: Could not remove \x27" ++ servicePath ++
    chars "\x27. Error: \x27Failed to reload daemon while rolling back.\x27"

/-- `SystemdService.rollback`: unlink the unit file and re-run daemon-reload. -/
def systemdRollback (servicePath : Str) (system : Bool) (ss : List SpawnResult) :
    Except Str Unit × List SpawnResult × List Event :=
  let p := popSpawn ss
  let tr := [Event.unlinkE servicePath, Event.spawnE (systemdReloadArgv system)]
  if p.1.code != 0 then (Except.error (sdRollbackFailMsg servicePath), p.2, tr)
  else (Except.ok (), p.2, tr)

/-- `SystemdService.install`. -/
def systemdInstall (config : InstallConfig) (onlyGenerate : Bool) (w : World) :
    Except Str ServiceInstallResultM × List Event :=
  let servicePathUser := systemdUserPath config.home config.name
  let servicePathSystem := systemdSystemPath config.name
  let servicePath := if config.system then servicePathSystem else servicePathUser
  if w.fileExists servicePathUser then
    (Except.error (sdExistsMsg config.name servicePathUser), [])
  else if w.fileExists servicePathSystem then
    (Except.error (sdExistsMsg config.name servicePathSystem), [])
  else if !config.system && !onlyGenerate && !(jsTruthy config.user) then
    (Except.error (chars "Username not found in $USER, must be specified using the --username flag or via the user option."), [])
  else
    let doLinger := !config.system && !onlyGenerate
    let afterLinger :=
      if doLinger then
        let p := popSpawn w.spawns
        (p.2, [Event.spawnE [chars "loginctl", chars "enable-linger", interpOpt config.user]],
          p.1.code != 0)
      else (w.spawns, ([] : List Event), false)
    let ss1 := afterLinger.1
    let tr1 := afterLinger.2.1
    if afterLinger.2.2 then
      (Except.error (chars "Failed to enable linger for user mode."), tr1)
    else
      let serviceFileContent := systemdGenerateConfig config w
      if onlyGenerate then
        (Except.ok (mkInstallRes (some servicePath) serviceFileContent ManualOut.nul), tr1)
      else if config.system then
        let tempFilePath := w.tempDir
        let tempFileFullPath := tempFilePath ++ chars "/cfg"
        let steps := [
          mkStep (chars "The systemd configuration has been saved to a temporary file. Copy this file to the correct location using the following command:")
            (some (chars "sudo cp " ++ tempFileFullPath ++ chars " " ++ servicePath)),
          mkStep (chars "Reload the systemd configuration:")
            (some (chars "sudo systemctl daemon-reload")),
          mkStep (chars "Enable the service:")
            (some (chars "sudo systemctl enable " ++ config.name)),
          mkStep (chars "Start the service now:")
            (some (chars "sudo systemctl start " ++ config.name))]
        (Except.ok (mkInstallRes (some tempFilePath) serviceFileContent (ManualOut.steps steps)),
          tr1 ++ [Event.mktemp (chars "svcinstall"), Event.write tempFileFullPath serviceFileContent])
      else
        let serviceDir := dirnameOf servicePath
        let trW := tr1 ++ [Event.mkdirp serviceDir, Event.write servicePath serviceFileContent]
        let p1 := popSpawn ss1
        let tr2 := trW ++ [Event.spawnE (systemdReloadArgv config.system)]
        if p1.1.code != 0 then
          match systemdRollback servicePath config.system p1.2 with
          | (Except.error m, _, trR) => (Except.error m, tr2 ++ trR)
          | (Except.ok _, _, trR) =>
            (Except.error (chars "Failed to reload daemon, rolled back any changes. Error: \n" ++ p1.1.stderr), tr2 ++ trR)
        else
          let p2 := popSpawn p1.2
          let tr3 := tr2 ++ [Event.spawnE (systemdEnableArgv config.system config.name)]
          if p2.1.code != 0 then
            match systemdRollback servicePath config.system p2.2 with
            | (Except.error m, _, trR) => (Except.error m, tr3 ++ trR)
            | (Except.ok _, _, trR) =>
              (Except.error (chars "Failed to enable service, rolled back any changes. Error: \n" ++ p2.1.stderr), tr3 ++ trR)
          else
            let p3 := popSpawn p2.2
            let tr4 := tr3 ++ [Event.spawnE (systemdStartArgv config.system config.name)]
            if p3.1.code != 0 then
              match systemdRollback servicePath config.system p3.2 with
              | (Except.error m, _, trR) => (Except.error m, tr4 ++ trR)
              | (Except.ok _, _, trR) =>
                (Except.error (chars "Failed to start service, rolled back any changes. Error: \n" ++ p3.1.stdout), tr4 ++ trR)
            else
              (Except.ok (mkInstallRes (some servicePath) serviceFileContent ManualOut.nul), tr4)

/-- `SystemdService.uninstall`.  In user mode the unit file is unlinked
between the `stop` spawn and the `daemon-reload` spawn, and only afterwards
are the two exit codes checked; the inner throw is wrapped by the
surrounding catch. -/
def systemdUninstall (config : UninstallConfig) (w : World) :
    Except Str ServiceUninstallResultM × List Event :=
  let servicePathUser := systemdUserPath config.home config.name
  let servicePathSystem := systemdSystemPath config.name
  let servicePath := if config.system then servicePathSystem else servicePathUser
  if !(w.fileExists servicePath) then
    (Except.error (chars "Service \x27" ++ config.name ++ chars "\x27 does not exist."), [])
  else if config.system then
    let steps := [
      mkStep (chars "Please run this command to stop the service:")
        (some (chars "sudo systemctl stop " ++ config.name)),
      mkStep (chars "Please run the following command to remove the service:")
        (some (chars "sudo rm " ++ servicePathSystem)),
      mkStep (chars "And this command to reload the systemctl daemon:")
        (some (chars "sudo systemctl daemon-reload"))]
    (Except.ok (mkUninstallRes (some servicePath) (ManualOut.steps steps)), [])
  else
    let p1 := popSpawn w.spawns
    let p2 := popSpawn p1.2
    let tr := [Event.spawnE [chars "systemctl", chars "--user", chars "stop", config.name],
      Event.unlinkE servicePath,
      Event.spawnE [chars "systemctl", chars "--user", chars "daemon-reload"]]
    if !(p1.1.code == 0 && p2.1.code == 0) then
      (Except.error (chars "Failed to uninstall service: Could not remove \x27" ++ servicePath ++
        chars "\x27. Error: \x27Could not remove the service.\x27"), tr)
    else
      (Except.ok (mkUninstallRes (some servicePath) (ManualOut.steps [])), tr)

/-- Init-script path `/etc/init.d/${name}`. -/
def initScriptPathOf (name : Str) : Str := chars "/etc/init.d/" ++ name

/-- `InitService.install`. -/
def initInstall (config : InstallConfig) (onlyGenerate : Bool) (w : World) :
    Except Str ServiceInstallResultM × List Event :=
  let scriptPath := initScriptPathOf config.name
  if w.fileExists scriptPath then
    (Except.error (chars "Service \x27" ++ config.name ++ chars "\x27 already exists in \x27" ++
      scriptPath ++ chars "\x27."), [])
  else
    let initScriptContent := initGenerateConfig config w
    if onlyGenerate then
      (Except.ok (mkInstallRes (some scriptPath) initScriptContent ManualOut.nul), [])
    else
      let tempFilePath := w.tempDir ++ chars "/svc-init"
      let steps := [
        mkStep (chars "The service installer does not have (and should not have) root permissions, so the next steps have to be carried out manually.") none,
        mkStep (chars "Step 1: The init script has been saved to a temporary file, copy this file to the correct location using the following command:")
          (some (chars "sudo cp " ++ tempFilePath ++ chars " " ++ scriptPath)),
        mkStep (chars "Step 2: Make the script executable:")
          (some (chars "sudo chmod +x " ++ scriptPath)),
        mkStep (chars "Step 3: Enable the service to start at boot:")
          (some (chars "sudo update-rc.d " ++ config.name ++ chars " defaults")),
        mkStep (chars "Step 4: Start the service now:")
          (some (chars "sudo service " ++ config.name ++ chars " start"))]
      (Except.ok (mkInstallRes (some tempFilePath) initScriptContent (ManualOut.steps steps)),
        [Event.mktemp (chars "svcinstall"), Event.write tempFilePath initScriptContent])

/-- `InitService.uninstall`. -/
def initUninstall (config : UninstallConfig) (w : World) :
    Except Str ServiceUninstallResultM × List Event :=
  let scriptPath := initScriptPathOf config.name
  if !(w.fileExists scriptPath) then
    (Except.error (chars "Service \x27" ++ config.name ++ chars "\x27 does not exist in \x27" ++
      scriptPath ++ chars "\x27."), [])
  else
    let steps := [
      mkStep (chars "The uninstaller does not have (and should not have) root permissions, so the next steps have to be carried out manually.") none,
      mkStep (chars "Step 1: Stop the service (if it\x27s running):")
        (some (chars "sudo service " ++ config.name ++ chars " stop")),
      mkStep (chars "Step 2: Disable the service from starting at boot:")
        (some (chars "sudo update-rc.d -f " ++ config.name ++ chars " remove")),
      mkStep (chars "Step 3: Remove the init script:")
        (some (chars "sudo rm " ++ scriptPath))]
    (Except.ok (mkUninstallRes (some scriptPath) (ManualOut.steps steps)), [])

/-- Upstart conf path `/etc/init/${name}.conf`. -/
def upstartConfPath (name : Str) : Str := chars "/etc/init/" ++ name ++ chars ".conf"

/-- `UpstartService.install`.  This manager is console-based: it returns no
result record (`Unit` on success); `console.error` + `exit(1)` on an existing
service is modelled as an error carrying the printed message. -/
def upstartInstall (config : InstallConfig) (onlyGenerate : Bool) (w : World) :
    Except Str Unit × List Event :=
  let confPath := upstartConfPath config.name
  if w.fileExists confPath then
    (Except.error (chars "Service \x27" ++ config.name ++ chars "\x27 already exists in \x27" ++
      confPath ++ chars "\x27. Exiting."), [])
  else if onlyGenerate then
    (Except.ok (), [])
  else
    let tempFilePath := w.tempDir ++ chars "/svc-upstart"
    (Except.ok (), [Event.mktemp (chars "svc-installer"),
      Event.write tempFilePath (upstartGenerateConfig config w)])

/-- `UpstartService.uninstall` (console-based; unlink failures are caught and
only printed, so the call itself succeeds once the existence check passed). -/
def upstartUninstall (config : UninstallConfig) (w : World) :
    Except Str Unit × List Event :=
  let confPath := upstartConfPath config.name
  if !(w.fileExists confPath) then
    (Except.error (chars "Service \x27" ++ config.name ++ chars "\x27 does not exist. Exiting."), [])
  else
    (Except.ok (), [Event.unlinkE confPath])

/-- User-mode launchd plist path `${home}/Library/LaunchAgents/${name}.plist`. -/
def launchdUserPath (home : Option Str) (name : Str) : Str :=
  interpOpt home ++ chars "/Library/LaunchAgents/" ++ name ++ chars ".plist"

/-- System-mode launchd plist path `/Library/LaunchDaemons/${name}.plist`. -/
def launchdSystemPath (name : Str) : Str :=
  chars "/Library/LaunchDaemons/" ++ name ++ chars ".plist"

/-- `LaunchdService.install`. -/
def launchdInstall (config : InstallConfig) (onlyGenerate : Bool) (w : World) :
    Except Str ServiceInstallResultM × List Event :=
  let plistPathUser := launchdUserPath config.home config.name
  let plistPathSystem := launchdSystemPath config.name
  let plistPath := if config.system then plistPathSystem else plistPathUser
  if w.fileExists plistPathUser || w.fileExists plistPathSystem then
    (Except.error (chars "Service \x27" ++ config.name ++ chars "\x27 already exists."), [])
  else
    let plistContent := launchdGenerateConfig config w
    if onlyGenerate then
      (Except.ok (mkInstallRes (some plistPath) plistContent ManualOut.nul), [])
    else
      let manual :=
        if config.system then
          chars "Please run the following command as root to load the service:" ++
            chars "sudo launchctl load " ++ plistPath
        else
          chars "Please run the following command to load the service:" ++
            chars "launchctl load " ++ plistPath
      (Except.ok (mkInstallRes (some plistPath) plistContent (ManualOut.txt manual)),
        [Event.mkdirp (dirnameOf plistPath), Event.write plistPath plistContent])

/-- `LaunchdService.uninstall`. -/
def launchdUninstall (config : UninstallConfig) (w : World) :
    Except Str ServiceUninstallResultM × List Event :=
  let plistPathUser := launchdUserPath config.home config.name
  let plistPathSystem := launchdSystemPath config.name
  let plistPath := if config.system then plistPathSystem else plistPathUser
  if !(w.fileExists plistPath) then
    (Except.error (chars "Service \x27" ++ config.name ++ chars "\x27 does not exist."), [])
  else
    let manual :=
      if config.system then
        chars "Please run the following command as root to unload the service (if it\x27s running):" ++
          chars "sudo launchctl unload " ++ plistPath
      else
        chars "Please run the following command to unload the service (if it\x27s running):" ++
          chars "launchctl unload " ++ plistPath
    (Except.ok (mkUninstallRes (some plistPath) (ManualOut.txt manual)), [Event.unlinkE plistPath])

/-- Windows batch path `${home}/.service/${name}.bat`. -/
def windowsBatchPath (home : Option Str) (name : Str) : Str :=
  interpOpt home ++ chars "/.service/" ++ name ++ chars ".bat"

/-- The powershell/sc.exe argv used by `WindowsService.install`/`uninstall`. -/
def windowsScArgv (scArgs : Str) : List Str :=
  [chars "powershell.exe", chars "-Command", chars "Start-Process", chars "sc.exe",
    chars "-ArgumentList", chars "\x27" ++ scArgs ++ chars "\x27", chars "-Verb", chars "RunAs"]

/-- `WindowsService.install`. -/
def windowsInstall (config : InstallConfig) (onlyGenerate : Bool) (w : World) :
    Except Str ServiceInstallResultM × List Event :=
  let serviceBatchPath := windowsBatchPath config.home config.name
  if w.fileExists serviceBatchPath then
    (Except.error (chars "Service \x27" ++ config.name ++ chars "\x27 already exists in \x27" ++
      serviceBatchPath ++ chars "\x27."), [])
  else
    let batchFileContent := windowsGenerateConfig config w
    if onlyGenerate then
      (Except.ok (mkInstallRes (some serviceBatchPath) batchFileContent ManualOut.nul), [])
    else
      let serviceDirectory := interpOpt config.home ++ chars "/.service/"
      let trDir := if w.fileExists serviceDirectory then [] else [Event.mkdirp serviceDirectory]
      let scArgs := chars "create " ++ config.name ++ chars " binPath=\"cmd.exe /C " ++
        serviceBatchPath ++ chars "\" start= auto DisplayName= \"" ++ config.name ++
        chars "\" obj= LocalSystem"
      let p := popSpawn w.spawns
      let tr := trDir ++ [Event.write serviceBatchPath batchFileContent,
        Event.spawnE (windowsScArgv scArgs)]
      if p.1.code != 0 then
        (Except.error (chars "Failed to install service. Error: \n" ++ p.1.stdout ++ p.1.stderr),
          tr ++ [Event.unlinkE serviceBatchPath])
      else
        (Except.ok (mkInstallRes (some serviceBatchPath) batchFileContent ManualOut.nul), tr)

/-- `WindowsService.uninstall` (note: the success result reports the service
name, not the batch path, in `servicePath`, exactly as the source does). -/
def windowsUninstall (config : UninstallConfig) (w : World) :
    Except Str ServiceUninstallResultM × List Event :=
  let serviceBatchPath := windowsBatchPath config.home config.name
  if !(w.fileExists serviceBatchPath) then
    (Except.error (chars "Service \x27" ++ config.name ++ chars "\x27 does not exist."), [])
  else
    let scArgs := chars "delete " ++ config.name
    let p := popSpawn w.spawns
    let tr := [Event.spawnE (windowsScArgv scArgs)]
    if p.1.code != 0 then
      (Except.error (chars "Failed to uninstall service. Error: \n" ++ p.1.stderr),
        tr ++ [Event.unlinkE serviceBatchPath])
    else
      (Except.ok (mkUninstallRes (some config.name) ManualOut.nul),
        tr ++ [Event.unlinkE serviceBatchPath])

/-! ## Init-system detection, defaults, registry and entry points -/

/-- `["ps", "-p", "1", "-o", "comm="]`, the PID-1 probe. -/
def psArgv : List Str :=
  [chars "ps", chars "-p", chars "1", chars "-o", chars "comm="]

/-- `detectInitSystem` of `lib/service.ts` as a function of the ambient data
it reads: the OS family, the stdout of the PID-1 probe, and the two `stat`
results of the Upstart probe (`none` models the call throwing). -/
def detectInitSystem (os : OSFamily) (psOut : Str) (stInitctl stEtcInit : Option FileMeta) :
    Except Str Str :=
  match os with
  | OSFamily.macOS => Except.ok (chars "launchd")
  | OSFamily.windowsOS => Except.ok (chars "windows")
  | OSFamily.linux =>
    if containsSub (chars "systemd") psOut then Except.ok (chars "systemd")
    else if containsSub (chars "init") psOut then
      match stInitctl, stEtcInit with
      | some m1, some m2 =>
        if m1.isFile && m2.isDirectory then Except.ok (chars "upstart")
        else Except.ok (chars "sysvinit")
      | _, _ => Except.ok (chars "sysvinit")
    else if containsSub (chars "openrc") psOut then Except.ok (chars "openrc")
    else if containsSub (chars "docker-init") psOut then Except.ok (chars "dockerinit")
    else Except.error (chars "Unsupported init system.")

/-- The detection algorithm exactly as the specification words it: an ordered
case analysis, macOS and Windows first with no probing, then the PID-1
command name, with the Upstart probe requiring `/sbin/initctl` to be a file
and `/etc/init` to be a directory and yielding `sysvinit` otherwise. -/
def detectInitSystemSpec (os : OSFamily) (psOut : Str) (stInitctl stEtcInit : Option FileMeta) :
    Except Str Str :=
  if os = OSFamily.macOS then Except.ok (chars "launchd")
  else if os = OSFamily.windowsOS then Except.ok (chars "windows")
  else if containsSub (chars "systemd") psOut then Except.ok (chars "systemd")
  else if containsSub (chars "init") psOut then
    if (match stInitctl with | some m => m.isFile | none => false) &&
       (match stEtcInit with | some m => m.isDirectory | none => false) then
      Except.ok (chars "upstart")
    else Except.ok (chars "sysvinit")
  else if containsSub (chars "openrc") psOut then Except.ok (chars "openrc")
  else if containsSub (chars "docker-init") psOut then Except.ok (chars "dockerinit")
  else Except.error (chars "Unsupported init system.")

/-- `detectInitSystem` run against a `World`: on macOS/Windows it returns
without spawning anything; otherwise it spawns the `ps` probe (consuming one
queued spawn result) and applies the pure case analysis to its stdout. -/
def detectWithWorld (w : World) : Except Str Str × List SpawnResult × List Event :=
  match w.os with
  | OSFamily.macOS => (Except.ok (chars "launchd"), w.spawns, [])
  | OSFamily.windowsOS => (Except.ok (chars "windows"), w.spawns, [])
  | OSFamily.linux =>
    let p := popSpawn w.spawns
    (detectInitSystem OSFamily.linux p.1.stdout w.statInitctl w.statEtcInit, p.2,
      [Event.spawnE psArgv])

/-- `prepareConfig` for `InstallServiceOptions`: `system` defaults to `false`,
an empty or missing `name` becomes `deno-service`, `home` falls back to the
`HOME` then `userprofile` environment variables, `user` to `USER`, `cwd` to
the current working directory. -/
def prepareInstall (o : InstallOptionsIn) (w : World) : InstallConfig :=
  { system := o.system.getD false
    name := jsOrStr o.name (chars "deno-service")
    cmd := o.cmd
    user := jsOr o.user w.envUSER
    home := jsOr o.home (jsOr w.envHOME w.envUserprofile)
    cwd := jsOr o.cwd (some w.cwdDir)
    path := o.path
    env := o.env }

/-- `prepareConfig` for `UninstallServiceOptions` (no `cmd`/`user`/`cwd`/
`path`/`env` keys in the record, so those fields are simply absent). -/
def prepareUninstall (o : UninstallOptionsIn) (w : World) : UninstallConfig :=
  { system := o.system.getD false
    name := jsOrStr o.name (chars "deno-service")
    home := jsOr o.home (jsOr w.envHOME w.envUserprofile) }

/-- The six keys registered in the `ServiceManager` registry (two of them,
`sysvinit` and `docker-init`, share the `InitService` implementation). -/
inductive BackendId
  | systemdB
  | sysvinitB
  | dockerInitB
  | upstartB
  | launchdB
  | windowsB
deriving DecidableEq

/-- `ServiceManager.managers.get`, the registry lookup. -/
def lookupBackend (k : Str) : Option BackendId :=
  if k = chars "systemd" then some BackendId.systemdB
  else if k = chars "sysvinit" then some BackendId.sysvinitB
  else if k = chars "docker-init" then some BackendId.dockerInitB
  else if k = chars "upstart" then some BackendId.upstartB
  else if k = chars "launchd" then some BackendId.launchdB
  else if k = chars "windows" then some BackendId.windowsB
  else none

/-- `ServiceManager.installService`: registry lookup followed by delegation
to the manager's `install` (the console-based upstart manager returns no
result record, modelled as `none`). -/
def dispatchInstall (k : Str) (config : InstallConfig) (onlyGenerate : Bool) (w : World) :
    Except Str (Option ServiceInstallResultM) × List Event :=
  match lookupBackend k with
  | none => (Except.error (chars "Unsupported init system: " ++ k), [])
  | some BackendId.systemdB =>
    let r := systemdInstall config onlyGenerate w
    (r.1.map some, r.2)
  | some BackendId.sysvinitB =>
    let r := initInstall config onlyGenerate w
    (r.1.map some, r.2)
  | some BackendId.dockerInitB =>
    let r := initInstall config onlyGenerate w
    (r.1.map some, r.2)
  | some BackendId.upstartB =>
    let r := upstartInstall config onlyGenerate w
    (r.1.map (fun _ => none), r.2)
  | some BackendId.launchdB =>
    let r := launchdInstall config onlyGenerate w
    (r.1.map some, r.2)
  | some BackendId.windowsB =>
    let r := windowsInstall config onlyGenerate w
    (r.1.map some, r.2)

/-- `ServiceManager.uninstallService`: registry lookup followed by delegation
to the manager's `uninstall`. -/
def dispatchUninstall (k : Str) (config : UninstallConfig) (w : World) :
    Except Str (Option ServiceUninstallResultM) × List Event :=
  match lookupBackend k with
  | none => (Except.error (chars "Unsupported init system: " ++ k), [])
  | some BackendId.systemdB =>
    let r := systemdUninstall config w
    (r.1.map some, r.2)
  | some BackendId.sysvinitB =>
    let r := initUninstall config w
    (r.1.map some, r.2)
  | some BackendId.dockerInitB =>
    let r := initUninstall config w
    (r.1.map some, r.2)
  | some BackendId.upstartB =>
    let r := upstartUninstall config w
    (r.1.map (fun _ => none), r.2)
  | some BackendId.launchdB =>
    let r := launchdUninstall config w
    (r.1.map some, r.2)
  | some BackendId.windowsB =>
    let r := windowsUninstall config w
    (r.1.map some, r.2)

/-- `installService` of `lib/service.ts`: a truthy `forceInitSystem` together
with a real install (`onlyGenerate = false`) throws before anything else;
otherwise defaults are applied, the init system is the forced one or the
detected one, and the registry dispatches. -/
def installServiceTop (o : InstallOptionsIn) (onlyGenerate : Bool) (force : Option Str)
    (w : World) : Except Str (Option ServiceInstallResultM) × List Event :=
  if jsTruthy force && !onlyGenerate then
    (Except.error (chars "Manually selecting an init system is not possible while installing."), [])
  else
    let config := prepareInstall o w
    let det := if jsTruthy force then (Except.ok (interpOpt force), w.spawns, ([] : List Event))
      else detectWithWorld w
    match det with
    | (Except.error m, _, tr) => (Except.error m, tr)
    | (Except.ok initSystem, ss, tr) =>
      let r := dispatchInstall initSystem config onlyGenerate { w with spawns := ss }
      (r.1, tr ++ r.2)

/-- `uninstallService` of `lib/service.ts` (no restriction on forcing). -/
def uninstallServiceTop (o : UninstallOptionsIn) (force : Option Str) (w : World) :
    Except Str (Option ServiceUninstallResultM) × List Event :=
  let config := prepareUninstall o w
  let det := if jsTruthy force then (Except.ok (interpOpt force), w.spawns, ([] : List Event))
    else detectWithWorld w
  match det with
  | (Except.error m, _, tr) => (Except.error m, tr)
  | (Except.ok initSystem, ss, tr) =>
    let r := dispatchUninstall initSystem config { w with spawns := ss }
    (r.1, tr ++ r.2)

/-! ## String lemmas -/

theorem startsWith_append (p t : Str) : startsWith p (p ++ t) = true := by
  induction p with
  | nil => rfl
  | cons a as ih => simp [startsWith, ih]

theorem startsWith_iff (p s : Str) : startsWith p s = true ↔ ∃ t, s = p ++ t := by
  induction p generalizing s with
  | nil =>
    simp [startsWith]
  | cons a as ih =>
    cases s with
    | nil => simp [startsWith]
    | cons b bs =>
      simp only [startsWith, Bool.and_eq_true, beq_iff_eq, ih]
      constructor
      · rintro ⟨rfl, t, rfl⟩
        exact ⟨t, rfl⟩
      · rintro ⟨t, ht⟩
        cases ht
        exact ⟨rfl, t, rfl⟩

theorem containsSub_cons (pat : Str) (c : Char) (s : Str)
    (h : containsSub pat s = true) : containsSub pat (c :: s) = true := by
  simp [containsSub, h]

theorem containsSub_iff (pat s : Str) :
    containsSub pat s = true ↔ ∃ a b, s = a ++ pat ++ b := by
  induction s with
  | nil =>
    simp only [containsSub, startsWith_iff]
    constructor
    · rintro ⟨t, ht⟩
      exact ⟨[], t, ht⟩
    · rintro ⟨a, b, h⟩
      cases a with
      | nil => exact ⟨b, h⟩
      | cons x xs => simp at h
  | cons c cs ih =>
    simp only [containsSub, Bool.or_eq_true, startsWith_iff, ih]
    constructor
    · rintro (⟨t, ht⟩ | ⟨a, b, h⟩)
      · exact ⟨[], t, ht⟩
      · exact ⟨c :: a, b, by simp [h]⟩
    · rintro ⟨a, b, h⟩
      cases a with
      | nil => exact Or.inl ⟨b, h⟩
      | cons x xs =>
        simp only [List.cons_append, List.cons.injEq] at h
        exact Or.inr ⟨xs, b, h.2⟩

theorem containsSub_append_left (pat t : Str) : containsSub pat (pat ++ t) = true :=
  (containsSub_iff pat (pat ++ t)).mpr ⟨[], t, by simp⟩

theorem containsSub_append (pat a s : Str)
    (h : containsSub pat s = true) : containsSub pat (a ++ s) = true := by
  rw [containsSub_iff] at h ⊢
  obtain ⟨x, y, rfl⟩ := h
  exact ⟨a ++ x, y, by simp⟩

theorem containsSub_trans (p b s : Str) (h1 : containsSub b s = true)
    (h2 : containsSub p b = true) : containsSub p s = true := by
  rw [containsSub_iff] at h1 h2 ⊢
  obtain ⟨a1, b1, rfl⟩ := h1
  obtain ⟨a2, b2, rfl⟩ := h2
  exact ⟨a1 ++ a2, b2 ++ b1, by simp⟩

theorem firstMatchPos_of_contains (pat s : Str) (h : containsSub pat s = true) :
    ∃ i, firstMatchPos? pat s = some i := by
  induction s with
  | nil =>
    simp only [containsSub] at h
    exact ⟨0, by simp [firstMatchPos?, h]⟩
  | cons c cs ih =>
    by_cases hs : startsWith pat (c :: cs) = true
    · exact ⟨0, by simp [firstMatchPos?, hs]⟩
    · simp only [containsSub, Bool.or_eq_true] at h
      rcases h with h | h
      · exact absurd h hs
      · obtain ⟨n, hn⟩ := ih h
        exact ⟨n + 1, by simp [firstMatchPos?, hs, hn]⟩

theorem expandRepl_no_dollar (matched before after rep : Str) (h : '$' ∉ rep) :
    expandRepl matched before after rep = rep := by
  induction rep with
  | nil => rfl
  | cons c rest ih =>
    simp only [List.mem_cons, not_or] at h
    have hc : ¬(c = '$') := fun hcc => h.1 hcc.symm
    cases rest with
    | nil => simp [expandRepl]
    | cons d rest2 =>
      simp only [expandRepl, if_neg hc]
      exact congrArg (c :: ·) (ih h.2)

theorem containsSub_replaceFirst_noDollar (pat rep s : Str)
    (hc : containsSub pat s = true) (hd : '$' ∉ rep) :
    containsSub rep (replaceFirst pat rep s) = true := by
  obtain ⟨i, hi⟩ := firstMatchPos_of_contains pat s hc
  rw [containsSub_iff]
  refine ⟨s.take i, s.drop (i + pat.length), ?_⟩
  simp [replaceFirst, hi, expandRepl_no_dollar _ _ _ _ hd]

theorem containsSub_concat_mem (pre post : Str) (env : List Str) (e : Str) (he : e ∈ env) :
    containsSub (pre ++ e ++ post) (concatAll (env.map (fun x => pre ++ x ++ post))) = true := by
  induction env with
  | nil => cases he
  | cons x xs ih =>
    simp only [List.map_cons, concatAll]
    rcases List.mem_cons.mp he with rfl | he'
    · exact containsSub_append_left _ _
    · exact containsSub_append _ _ _ (ih he')

/-! ## Concrete fixtures -/

/-- A concrete world for the rendering scenarios: runtime binary at
`/usr/bin/deno`, current working directory `/srv`, no existing files. -/
def scenarioWorld : World :=
  { fileExists := fun _ => false, spawns := [], execPath := chars "/usr/bin/deno",
    cwdDir := chars "/srv", envPATH := some (chars "/usr/bin"),
    envHOME := some (chars "/home/u"), envUserprofile := none,
    envUSER := some (chars "u"), os := OSFamily.linux, statInitctl := none,
    statEtcInit := none, tempDir := chars "/tmp/svc", runtimeIsDeno := true }

/-- The options of the systemd scenario:
`{system:false, name:"test-service", cmd:"run app.ts", home:"/home/u", user:"u"}`. -/
def scenarioOptsUser : InstallConfig :=
  { system := false, name := chars "test-service", cmd := chars "run app.ts",
    user := some (chars "u"), home := some (chars "/home/u"), cwd := none,
    path := none, env := none }

/-- The same options with `system:true`. -/
def scenarioOptsSystem : InstallConfig :=
  { scenarioOptsUser with system := true }

/-! ## Claim theorems -/

set_option maxRecDepth 100000

set_option maxHeartbeats 2000000

/-- C1: `detectInitSystem` implements exactly the specified ordered case
analysis: macOS yields `launchd` and Windows yields `windows` with no
further probing (the PID-1 spawn does not happen); otherwise the PID-1
command name is inspected, `systemd` before `init` (upstart when
`/sbin/initctl` is a file and `/etc/init` is a directory, `sysvinit`
otherwise, also when a `stat` throws), then `openrc`, then `docker-init`;
any other name is a detection failure. -/
theorem detect_implements_spec_case_analysis :
    (∀ (os : OSFamily) (psOut : Str) (stInitctl stEtcInit : Option FileMeta),
      detectInitSystem os psOut stInitctl stEtcInit =
        detectInitSystemSpec os psOut stInitctl stEtcInit) ∧
    (∀ w : World,
      detectWithWorld { w with os := OSFamily.macOS } =
        (Except.ok (chars "launchd"), w.spawns, []) ∧
      detectWithWorld { w with os := OSFamily.windowsOS } =
        (Except.ok (chars "windows"), w.spawns, [])) := by
  constructor
  · intro os psOut stI stE
    cases os with
    | macOS => rfl
    | windowsOS => rfl
    | linux =>
      by_cases h1 : containsSub (chars "systemd") psOut = true
      · simp [detectInitSystem, detectInitSystemSpec, h1]
      · by_cases h2 : containsSub (chars "init") psOut = true
        · cases stI <;> cases stE <;>
            simp [detectInitSystem, detectInitSystemSpec, h1, h2]
        · simp [detectInitSystem, detectInitSystemSpec, h1, h2]
  · intro w
    exact ⟨rfl, rfl⟩

/-- C8: for the systemd scenario options in user mode the rendered unit
contains the expected `Description`, `ExecStart`, `WantedBy=default.target`
lines and no `User=` line; with `system:true` it contains
`WantedBy=multi-user.target` and `User=u`. -/
theorem systemd_scenario_render :
    containsSub (chars "Description=test-service (Deno Service)")
      (systemdGenerateConfig scenarioOptsUser scenarioWorld) = true ∧
    containsSub (chars "ExecStart=/bin/sh -c \"run app.ts\"")
      (systemdGenerateConfig scenarioOptsUser scenarioWorld) = true ∧
    containsSub (chars "WantedBy=default.target")
      (systemdGenerateConfig scenarioOptsUser scenarioWorld) = true ∧
    containsSub (chars "User=")
      (systemdGenerateConfig scenarioOptsUser scenarioWorld) = false ∧
    containsSub (chars "WantedBy=multi-user.target")
      (systemdGenerateConfig scenarioOptsSystem scenarioWorld) = true ∧
    containsSub (chars "User=u")
      (systemdGenerateConfig scenarioOptsSystem scenarioWorld) = true :=
  ⟨rfl, rfl, rfl, rfl, rfl, rfl⟩

theorem containsSub_nil (s : Str) : containsSub [] s = true := by
  cases s <;> simp [containsSub, startsWith]

theorem containsSub_concatAll_mem (f : Str → Str) (env : List Str) (e : Str) (he : e ∈ env) :
    containsSub (f e) (concatAll (env.map f)) = true := by
  induction env with
  | nil => cases he
  | cons x xs ih =>
    simp only [List.map_cons, concatAll]
    rcases List.mem_cons.mp he with rfl | he'
    · exact containsSub_append_left _ _
    · exact containsSub_append _ _ _ (ih he')

theorem containsSub_self (pat : Str) : containsSub pat pat = true :=
  (containsSub_iff pat pat).mpr ⟨[], [], by simp⟩

theorem containsSub_append_right (pat s b : Str)
    (h : containsSub pat s = true) : containsSub pat (s ++ b) = true := by
  rw [containsSub_iff] at h ⊢
  obtain ⟨x, y, rfl⟩ := h
  exact ⟨x, y ++ b, by simp⟩

/-- Options used for the env-rendering statements: the scenario options with
the given extra env entries. -/
def c7Opts (env : List Str) : InstallConfig :=
  { scenarioOptsUser with env := some env }

/-- The systemd unit for the scenario options after every substitution except
`{{extraEnvs}}`. -/
def sdPreEnv : Str :=
  replaceFirst phWantedBy (chars "default.target")
    (replaceFirst phExtraServiceContent []
      (replaceFirst phWorkingDirectory (chars "/srv")
        (replaceFirst phPath (chars "PATH=/usr/bin")
          (replaceFirst phCommand (chars "run app.ts")
            (replaceFirst phName (chars "test-service") serviceFileTemplate)))))

/-- The init script for the scenario options after every substitution except
`{{extraEnvs}}`. -/
def initPreEnv : Str :=
  replaceFirst phPath (chars "/usr/bin")
    (replaceFirst phCommand (chars "run app.ts")
      (replaceAll phName (chars "test-service") initScriptTemplate))

/-- The upstart conf for the scenario options after every substitution except
`{{extraEnvs}}`. -/
def upstartPreEnv : Str :=
  replaceFirst phPath (chars "/usr/bin")
    (replaceFirst phCommand (chars "run app.ts")
      (replaceAll phName (chars "test-service") upstartFileTemplate))

/-- The launchd plist for the scenario options after every substitution
except `{{extraEnvs}}`. -/
def launchdPreEnv : Str :=
  replaceFirst phCommand
    (concatAll ([chars "run", chars "app.ts"].map
      (fun a => chars "      <string>" ++ a ++ chars "</string>\n")))
    (replaceAll phWorkingDirectory (chars "/srv")
      (replaceAll phPath (chars "undefined:/usr/bin")
        (replaceAll phName (chars "test-service") plistTemplate)))

/-- C7 (counterexample): the launchd renderer does not render env entries
verbatim.  For the entry `A=B=C` the rendered plist contains the pair
`<key>A</key>` / `<string>B</string>` and neither `A=B=C` nor even its value
part `B=C`: everything after the second `=` is dropped. -/
theorem splitChar_subset (sep : Char) (s : Str) :
    ∀ p ∈ splitChar sep s, ∀ c ∈ p, c ∈ s := by
  induction s with
  | nil =>
    intro p hp c hc
    simp only [splitChar, List.mem_singleton] at hp
    subst hp
    cases hc
  | cons x xs ih =>
    intro p hp c hc
    have e1 : splitChar sep (x :: xs) =
        if (x == sep) = true then [] :: splitChar sep xs
        else (match splitChar sep xs with
          | r :: rs => (x :: r) :: rs
          | [] => [[x]]) := rfl
    by_cases hx : (x == sep) = true
    · rw [e1, if_pos hx] at hp
      rcases List.mem_cons.mp hp with rfl | hp'
      · cases hc
      · exact List.mem_cons_of_mem _ (ih p hp' c hc)
    · rw [e1, if_neg hx] at hp
      cases hsp : splitChar sep xs with
      | nil =>
        rw [hsp] at hp
        simp only [List.mem_singleton] at hp
        subst hp
        simp only [List.mem_singleton] at hc
        rw [hc]
        exact List.mem_cons_self x xs
      | cons r rs =>
        rw [hsp] at hp
        rcases List.mem_cons.mp hp with rfl | hp'
        · rcases List.mem_cons.mp hc with rfl | hc'
          · exact List.mem_cons_self _ _
          · exact List.mem_cons_of_mem _
              (ih r (by rw [hsp]; exact List.mem_cons_self r rs) c hc')
        · exact List.mem_cons_of_mem _
            (ih p (by rw [hsp]; exact List.mem_cons_of_mem r hp') c hc)

theorem no_dollar_concatAll (f : Str → Str) (env : List Str)
    (h : ∀ e ∈ env, '$' ∉ f e) : '$' ∉ concatAll (env.map f) := by
  induction env with
  | nil => simp [concatAll]
  | cons x xs ih =>
    simp only [List.map_cons, concatAll, List.mem_append, not_or]
    exact ⟨h x (List.mem_cons_self x xs),
      ih (fun e he => h e (List.mem_cons_of_mem x he))⟩

theorem no_dollar_splitPart01 (e : Str) (he : '$' ∉ e) :
    '$' ∉ (splitChar '=' e).getD 0 (chars "undefined") ∧
    '$' ∉ (splitChar '=' e).getD 1 (chars "undefined") := by
  cases hsp : splitChar '=' e with
  | nil =>
    constructor <;> · show '$' ∉ chars "undefined"; decide
  | cons p rest =>
    constructor
    · show '$' ∉ p
      intro hmem
      exact he (splitChar_subset '=' e p (by rw [hsp]; exact List.mem_cons_self p rest) '$' hmem)
    · cases rest with
      | nil =>
        show '$' ∉ chars "undefined"
        decide
      | cons q rest2 =>
        show '$' ∉ q
        intro hmem
        refine he (splitChar_subset '=' e q ?_ '$' hmem)
        rw [hsp]
        exact List.mem_cons_of_mem p (List.mem_cons_self q rest2)

/-- C7 (counterexample): env entries are not rendered verbatim by every
backend.  The launchd renderer splits on `=`: for the entry `A=B=C` the
rendered plist contains the pair `<key>A</key>` / `<string>B</string>` and
neither `A=B=C` nor even its value part `B=C`.  And because the systemd
renderer inserts the env block with `String.replace`, whose replacement
string undergoes `$`-pattern substitution, the entry `A=$&` renders as
`Environment=A={{extraEnvs}}` rather than verbatim. -/
theorem env_entry_not_verbatim :
    containsSub (chars "B=C")
      (launchdGenerateConfig (c7Opts [chars "A=B=C"]) scenarioWorld) = false ∧
    containsSub (chars "A=B=C")
      (launchdGenerateConfig (c7Opts [chars "A=B=C"]) scenarioWorld) = false ∧
    containsSub (chars "<key>A</key>")
      (launchdGenerateConfig (c7Opts [chars "A=B=C"]) scenarioWorld) = true ∧
    containsSub (chars "<string>B</string>")
      (launchdGenerateConfig (c7Opts [chars "A=B=C"]) scenarioWorld) = true ∧
    containsSub (chars "Environment=A=$&")
      (systemdGenerateConfig (c7Opts [chars "A=$&"]) scenarioWorld) = false ∧
    containsSub (chars "Environment=A=\x7b\x7bextraEnvs\x7d\x7d")
      (systemdGenerateConfig (c7Opts [chars "A=$&"]) scenarioWorld) = true :=
  ⟨rfl, rfl, rfl, rfl, rfl, rfl⟩

/-- C7 (amended): the windows renderer emits every env entry verbatim, one
`set` line per element in input order, unconditionally (it builds the script
by plain concatenation).  The systemd, sysvinit and upstart renderers emit
the entries verbatim, one native line per element in input order, provided
no entry contains a `$` — their env block is inserted with `String.replace`,
so `$`-replacement patterns in entries are substituted instead of copied.
The launchd renderer (same `$` caveat) additionally splits each entry on `=`
and emits only the first two components as a `<key>`/`<string>` pair. -/
theorem env_entries_rendered_per_backend : ∀ env : List Str,
    (containsSub (windowsEnvBlock env)
      (windowsGenerateConfig (c7Opts env) scenarioWorld) = true ∧
     ∀ e ∈ env, containsSub (chars "set \"" ++ e ++ chars "\"\n")
      (windowsGenerateConfig (c7Opts env) scenarioWorld) = true) ∧
    ((∀ e ∈ env, '$' ∉ e) →
      (containsSub (systemdEnvBlock env)
        (systemdGenerateConfig (c7Opts env) scenarioWorld) = true ∧
       ∀ e ∈ env, containsSub (chars "Environment=" ++ e ++ chars "\n")
        (systemdGenerateConfig (c7Opts env) scenarioWorld) = true) ∧
      (containsSub (initEnvBlock env)
        (initGenerateConfig (c7Opts env) scenarioWorld) = true ∧
       ∀ e ∈ env, containsSub (e ++ chars "\n")
        (initGenerateConfig (c7Opts env) scenarioWorld) = true) ∧
      (containsSub (upstartEnvBlock env)
        (upstartGenerateConfig (c7Opts env) scenarioWorld) = true ∧
       ∀ e ∈ env, containsSub (chars "env " ++ e ++ chars "\n")
        (upstartGenerateConfig (c7Opts env) scenarioWorld) = true) ∧
      (containsSub (launchdEnvBlock env)
        (launchdGenerateConfig (c7Opts env) scenarioWorld) = true ∧
       ∀ e ∈ env, containsSub
        (chars "      <key>" ++ (splitChar '=' e).getD 0 (chars "undefined") ++
          chars "</key>\n      <string>" ++ (splitChar '=' e).getD 1 (chars "undefined") ++
          chars "</string>\n")
        (launchdGenerateConfig (c7Opts env) scenarioWorld) = true)) := by
  intro env
  have winBlock : containsSub (windowsEnvBlock env)
      (windowsGenerateConfig (c7Opts env) scenarioWorld) = true := by
    cases env with
    | nil => exact containsSub_nil _
    | cons e es =>
      simp only [windowsGenerateConfig]
      refine containsSub_append_right _ _ _ ?_
      refine containsSub_append_right _ _ _ ?_
      refine containsSub_append_right _ _ _ ?_
      refine containsSub_append_right _ _ _ ?_
      refine containsSub_append_right _ _ _ ?_
      rw [if_pos (show lenTruthy (c7Opts (e :: es)).env = true from rfl)]
      exact containsSub_append _ _ _ (containsSub_self _)
  refine ⟨⟨winBlock, ?_⟩, ?_⟩
  · intro e he
    exact containsSub_trans _ _ _ winBlock
      (containsSub_concatAll_mem (fun x => chars "set \"" ++ x ++ chars "\"\n") env e he)
  intro hd
  have hdSd : '$' ∉ systemdEnvBlock env := by
    refine no_dollar_concatAll _ env (fun e he => ?_)
    simp only [List.mem_append, not_or]
    exact ⟨⟨by decide, hd e he⟩, by decide⟩
  have hdInit : '$' ∉ initEnvBlock env := by
    refine no_dollar_concatAll _ env (fun e he => ?_)
    simp only [List.mem_append, not_or]
    exact ⟨hd e he, by decide⟩
  have hdUp : '$' ∉ upstartEnvBlock env := by
    refine no_dollar_concatAll _ env (fun e he => ?_)
    simp only [List.mem_append, not_or]
    exact ⟨⟨by decide, hd e he⟩, by decide⟩
  have hdLd : '$' ∉ launchdEnvBlock env := by
    refine no_dollar_concatAll _ env (fun e he => ?_)
    simp only [List.mem_append, not_or]
    exact ⟨⟨⟨⟨by decide, (no_dollar_splitPart01 e (hd e he)).1⟩, by decide⟩,
      (no_dollar_splitPart01 e (hd e he)).2⟩, by decide⟩
  have sdBlock : containsSub (systemdEnvBlock env)
      (systemdGenerateConfig (c7Opts env) scenarioWorld) = true := by
    cases env with
    | nil => exact containsSub_nil _
    | cons e es =>
      have step : systemdGenerateConfig (c7Opts (e :: es)) scenarioWorld =
          replaceFirst phExtraEnvs (systemdEnvBlock (e :: es)) sdPreEnv := rfl
      rw [step]
      exact containsSub_replaceFirst_noDollar _ _ _ (by rfl) hdSd
  have initBlock : containsSub (initEnvBlock env)
      (initGenerateConfig (c7Opts env) scenarioWorld) = true := by
    cases env with
    | nil => exact containsSub_nil _
    | cons e es =>
      have step : initGenerateConfig (c7Opts (e :: es)) scenarioWorld =
          replaceFirst phExtraEnvs (initEnvBlock (e :: es)) initPreEnv := rfl
      rw [step]
      exact containsSub_replaceFirst_noDollar _ _ _ (by rfl) hdInit
  have upBlock : containsSub (upstartEnvBlock env)
      (upstartGenerateConfig (c7Opts env) scenarioWorld) = true := by
    cases env with
    | nil => exact containsSub_nil _
    | cons e es =>
      have step : upstartGenerateConfig (c7Opts (e :: es)) scenarioWorld =
          replaceFirst phExtraEnvs (upstartEnvBlock (e :: es)) upstartPreEnv := rfl
      rw [step]
      exact containsSub_replaceFirst_noDollar _ _ _ (by rfl) hdUp
  have ldBlock : containsSub (launchdEnvBlock env)
      (launchdGenerateConfig (c7Opts env) scenarioWorld) = true := by
    cases env with
    | nil => exact containsSub_nil _
    | cons e es =>
      have step : launchdGenerateConfig (c7Opts (e :: es)) scenarioWorld =
          replaceFirst phExtraEnvs (launchdEnvBlock (e :: es)) launchdPreEnv := rfl
      rw [step]
      exact containsSub_replaceFirst_noDollar _ _ _ (by rfl) hdLd
  refine ⟨⟨sdBlock, ?_⟩, ⟨initBlock, ?_⟩, ⟨upBlock, ?_⟩, ⟨ldBlock, ?_⟩⟩
  · intro e he
    exact containsSub_trans _ _ _ sdBlock
      (containsSub_concatAll_mem (fun x => chars "Environment=" ++ x ++ chars "\n") env e he)
  · intro e he
    exact containsSub_trans _ _ _ initBlock
      (containsSub_concatAll_mem (fun x => x ++ chars "\n") env e he)
  · intro e he
    exact containsSub_trans _ _ _ upBlock
      (containsSub_concatAll_mem (fun x => chars "env " ++ x ++ chars "\n") env e he)
  · intro e he
    exact containsSub_trans _ _ _ ldBlock
      (containsSub_concatAll_mem
        (fun x => chars "      <key>" ++ (splitChar '=' x).getD 0 (chars "undefined") ++
          chars "</key>\n      <string>" ++ (splitChar '=' x).getD 1 (chars "undefined") ++
          chars "</string>\n") env e he)

/-- A world in which the user-mode systemd unit for `test-service` already
exists on disk. -/
def existsUserWorld : World :=
  { scenarioWorld with
      fileExists := fun p => p == systemdUserPath (some (chars "/home/u")) (chars "test-service") }

/-- C2 (counterexample): when the resolved target path already holds a config
file, `SystemdService.install` throws the already-exists error before
rendering anything — the call returns no `ServiceInstallResult` at all, so no
`serviceFileContent` is produced, in generate mode as well as install mode. -/
theorem exists_check_precludes_rendered_content :
    systemdInstall scenarioOptsUser false existsUserWorld =
      (Except.error (sdExistsMsg (chars "test-service")
        (systemdUserPath (some (chars "/home/u")) (chars "test-service"))), []) ∧
    systemdInstall scenarioOptsUser true existsUserWorld =
      (Except.error (sdExistsMsg (chars "test-service")
        (systemdUserPath (some (chars "/home/u")) (chars "test-service"))), []) :=
  ⟨rfl, rfl⟩

/-- C2 (amended): `serviceFileContent` is produced only by calls that pass
the already-exists checks: when a config file already exists at the resolved
target path the call fails with an error and yields no result (and performs
no side effect), while a call that passes the checks and returns does carry
the fully rendered content (shown here for generate mode). -/
theorem content_only_when_checks_pass :
    ∀ (config : InstallConfig) (g : Bool) (w : World),
    ((w.fileExists (systemdUserPath config.home config.name) = true ∨
      w.fileExists (systemdSystemPath config.name) = true) →
      ∃ m, systemdInstall config g w = (Except.error m, [])) ∧
    (w.fileExists (initScriptPathOf config.name) = true →
      ∃ m, initInstall config g w = (Except.error m, [])) ∧
    (w.fileExists (systemdUserPath config.home config.name) = false →
     w.fileExists (systemdSystemPath config.name) = false →
      (systemdInstall config true w).1 = Except.ok (mkInstallRes
        (some (if config.system then systemdSystemPath config.name
          else systemdUserPath config.home config.name))
        (systemdGenerateConfig config w) ManualOut.nul)) := by
  intro config g w
  refine ⟨?_, ?_, ?_⟩
  · intro h
    rcases h with h | h
    · refine ⟨sdExistsMsg config.name (systemdUserPath config.home config.name), ?_⟩
      simp [systemdInstall, h]
    · by_cases hu : w.fileExists (systemdUserPath config.home config.name) = true
      · refine ⟨sdExistsMsg config.name (systemdUserPath config.home config.name), ?_⟩
        simp [systemdInstall, hu]
      · refine ⟨sdExistsMsg config.name (systemdSystemPath config.name), ?_⟩
        simp [systemdInstall, hu, h]
  · intro h
    refine ⟨chars "Service \x27" ++ config.name ++ chars "\x27 already exists in \x27" ++
      initScriptPathOf config.name ++ chars "\x27.", ?_⟩
    simp [initInstall, h]
  · intro h1 h2
    simp [systemdInstall, h1, h2]

/-- C3: for every backend with an already-present config file at the resolved
path, `install` fails with the already-exists precondition error and performs
no side effect at all (empty trace); for systemd and launchd, which have both
a user-mode and a system-mode path, existence at either path blocks the
install regardless of the requested mode. -/
theorem already_exists_blocks_install :
    ∀ (config : InstallConfig) (g : Bool) (w : World),
    ((w.fileExists (systemdUserPath config.home config.name) = true ∨
      w.fileExists (systemdSystemPath config.name) = true) →
      (systemdInstall config g w =
        (Except.error (sdExistsMsg config.name (systemdUserPath config.home config.name)), []) ∨
       systemdInstall config g w =
        (Except.error (sdExistsMsg config.name (systemdSystemPath config.name)), []))) ∧
    ((w.fileExists (launchdUserPath config.home config.name) = true ∨
      w.fileExists (launchdSystemPath config.name) = true) →
      launchdInstall config g w =
        (Except.error (chars "Service \x27" ++ config.name ++ chars "\x27 already exists."), [])) ∧
    (w.fileExists (initScriptPathOf config.name) = true →
      initInstall config g w =
        (Except.error (chars "Service \x27" ++ config.name ++ chars "\x27 already exists in \x27" ++
          initScriptPathOf config.name ++ chars "\x27."), [])) ∧
    (w.fileExists (windowsBatchPath config.home config.name) = true →
      windowsInstall config g w =
        (Except.error (chars "Service \x27" ++ config.name ++ chars "\x27 already exists in \x27" ++
          windowsBatchPath config.home config.name ++ chars "\x27."), [])) := by
  intro config g w
  refine ⟨?_, ?_, ?_, ?_⟩
  · intro h
    rcases h with h | h
    · exact Or.inl (by simp [systemdInstall, h])
    · by_cases hu : w.fileExists (systemdUserPath config.home config.name) = true
      · exact Or.inl (by simp [systemdInstall, hu])
      · exact Or.inr (by simp [systemdInstall, hu, h])
  · intro h
    rcases h with h | h <;> simp [launchdInstall, h]
  · intro h
    simp [initInstall, h]
  · intro h
    simp [windowsInstall, h]

/-- C4 (amended): with `onlyGenerate = true` every backend performs no
filesystem write and spawns no external command (the entire effect trace is
empty; in particular the systemd user-mode `loginctl enable-linger` step is
skipped).  The record-returning backends (systemd, sysvinit/docker-init,
launchd, windows) return the rendered content with `manualSteps` null
provided no config file already exists at the checked paths (an existing
file makes install raise instead); the legacy console-based upstart backend
is equally side-effect-free but returns no result record at all. -/
theorem generate_mode_no_side_effects :
    ∀ (config : InstallConfig) (w : World),
    (systemdInstall config true w).2 = [] ∧
    (w.fileExists (systemdUserPath config.home config.name) = false →
     w.fileExists (systemdSystemPath config.name) = false →
      systemdInstall config true w = (Except.ok (mkInstallRes
        (some (if config.system then systemdSystemPath config.name
          else systemdUserPath config.home config.name))
        (systemdGenerateConfig config w) ManualOut.nul), [])) ∧
    (initInstall config true w).2 = [] ∧
    (w.fileExists (initScriptPathOf config.name) = false →
      initInstall config true w = (Except.ok (mkInstallRes (some (initScriptPathOf config.name))
        (initGenerateConfig config w) ManualOut.nul), [])) ∧
    (launchdInstall config true w).2 = [] ∧
    (w.fileExists (launchdUserPath config.home config.name) = false →
     w.fileExists (launchdSystemPath config.name) = false →
      launchdInstall config true w = (Except.ok (mkInstallRes
        (some (if config.system then launchdSystemPath config.name
          else launchdUserPath config.home config.name))
        (launchdGenerateConfig config w) ManualOut.nul), [])) ∧
    (windowsInstall config true w).2 = [] ∧
    (w.fileExists (windowsBatchPath config.home config.name) = false →
      windowsInstall config true w = (Except.ok (mkInstallRes
        (some (windowsBatchPath config.home config.name))
        (windowsGenerateConfig config w) ManualOut.nul), [])) ∧
    (upstartInstall config true w).2 = [] := by
  intro config w
  refine ⟨?_, ?_, ?_, ?_, ?_, ?_, ?_, ?_, ?_⟩
  · by_cases h1 : w.fileExists (systemdUserPath config.home config.name) = true
    · simp [systemdInstall, h1]
    · by_cases h2 : w.fileExists (systemdSystemPath config.name) = true
      · simp [systemdInstall, h1, h2]
      · simp [systemdInstall, h1, h2]
  · intro h1 h2
    simp [systemdInstall, h1, h2]
  · by_cases h : w.fileExists (initScriptPathOf config.name) = true <;>
      simp [initInstall, h]
  · intro h
    simp [initInstall, h]
  · by_cases h1 : w.fileExists (launchdUserPath config.home config.name) = true
    · simp [launchdInstall, h1]
    · by_cases h2 : w.fileExists (launchdSystemPath config.name) = true <;>
        simp [launchdInstall, h1, h2]
  · intro h1 h2
    simp [launchdInstall, h1, h2]
  · by_cases h : w.fileExists (windowsBatchPath config.home config.name) = true <;>
      simp [windowsInstall, h]
  · intro h
    simp [windowsInstall, h]
  · by_cases h : w.fileExists (upstartConfPath config.name) = true <;>
      simp [upstartInstall, h]

/-- C4 (counterexample): the upstart backend does not return the rendered
content with `manualSteps` null in generate mode — the registered
`UpstartService.install` is console-based and returns no result record, so
the registry dispatch yields no `ServiceInstallResult` at all. -/
theorem upstart_generate_returns_no_record :
    dispatchInstall (chars "upstart") scenarioOptsUser true scenarioWorld =
      (Except.ok none, []) :=
  rfl

/-- C5: supplying a truthy forced backend identifier together with a real
install (`onlyGenerate = false`) raises immediately, before any detection,
rendering or side effect (empty trace); with `onlyGenerate = true`, and for
`uninstallService`, the forced identifier bypasses detection (no `ps` probe
is spawned) and is fed directly to the registry lookup and dispatch. -/
theorem force_only_for_generate_and_uninstall :
    ∀ (o : InstallOptionsIn) (u : UninstallOptionsIn) (s : Str) (w : World), s ≠ [] →
    (installServiceTop o false (some s) w =
      (Except.error (chars "Manually selecting an init system is not possible while installing."),
       [])) ∧
    (installServiceTop o true (some s) w = dispatchInstall s (prepareInstall o w) true w) ∧
    (uninstallServiceTop u (some s) w = dispatchUninstall s (prepareUninstall u w) w) := by
  intro o u s w hs
  cases s with
  | nil => cases hs rfl
  | cons c cs =>
    refine ⟨?_, ?_, ?_⟩
    · simp [installServiceTop, jsTruthy]
    · simp [installServiceTop, jsTruthy, interpOpt]
    · simp [uninstallServiceTop, jsTruthy, interpOpt]

/-- A world whose queued spawn results make the user-mode systemd install
fail at `daemon-reload` (stderr `boom`) and then make the rollback's own
`daemon-reload` fail as well. -/
def rollbackFailWorld : World :=
  { scenarioWorld with spawns := [
      { code := 0, stdout := [], stderr := [] },
      { code := 1, stdout := [], stderr := chars "boom" },
      { code := 1, stdout := [], stderr := [] } ] }

/-- C6 (counterexample): when the rollback itself fails, the error that
propagates is the rollback failure, not the primary failure — the captured
output of the failing step (`boom`) is absent from the propagated message. -/
theorem rollback_failure_masks_primary_error :
    (systemdInstall scenarioOptsUser false rollbackFailWorld).1 =
      Except.error (sdRollbackFailMsg
        (systemdUserPath (some (chars "/home/u")) (chars "test-service"))) ∧
    containsSub (chars "boom") (sdRollbackFailMsg
      (systemdUserPath (some (chars "/home/u")) (chars "test-service"))) = false :=
  ⟨rfl, rfl⟩

/-- C6 (amended): when an unprivileged systemd install step returns non-zero,
rollback is attempted (the written unit is unlinked); if the rollback's own
daemon-reload succeeds, the primary failure embedding that step's captured
output propagates (stderr for daemon-reload and enable, stdout for start);
if the rollback's daemon-reload also fails, the rollback error propagates
instead and replaces the primary one. -/
theorem step_failure_rollback_behavior :
    ∀ (config : InstallConfig) (w : World) (sl sr se ss srr : SpawnResult),
    config.system = false →
    w.fileExists (systemdUserPath config.home config.name) = false →
    w.fileExists (systemdSystemPath config.name) = false →
    jsTruthy config.user = true →
    sl.code = 0 →
    ((w.spawns = [sl, sr, srr] → sr.code ≠ 0 → srr.code = 0 →
      (systemdInstall config false w).1 = Except.error
        (chars "Failed to reload daemon, rolled back any changes. Error: \n" ++ sr.stderr)) ∧
     (w.spawns = [sl, sr, se, srr] → sr.code = 0 → se.code ≠ 0 → srr.code = 0 →
      (systemdInstall config false w).1 = Except.error
        (chars "Failed to enable service, rolled back any changes. Error: \n" ++ se.stderr)) ∧
     (w.spawns = [sl, sr, se, ss, srr] → sr.code = 0 → se.code = 0 → ss.code ≠ 0 → srr.code = 0 →
      (systemdInstall config false w).1 = Except.error
        (chars "Failed to start service, rolled back any changes. Error: \n" ++ ss.stdout)) ∧
     (w.spawns = [sl, sr, srr] → sr.code ≠ 0 → srr.code ≠ 0 →
      (systemdInstall config false w).1 = Except.error
        (sdRollbackFailMsg (systemdUserPath config.home config.name))) ∧
     (w.spawns = [sl, sr, srr] → sr.code ≠ 0 →
      Event.unlinkE (systemdUserPath config.home config.name) ∈ (systemdInstall config false w).2)) := by
  intro config w sl sr se ss srr hsys hf1 hf2 huser hsl
  refine ⟨?_, ?_, ?_, ?_, ?_⟩
  · intro hw hsr hsrr
    simp [systemdInstall, systemdRollback, popSpawn, hsys, hf1, hf2, huser, hsl, hw, hsr, hsrr]
  · intro hw hsr hse hsrr
    simp [systemdInstall, systemdRollback, popSpawn, hsys, hf1, hf2, huser, hsl, hw, hsr, hse,
      hsrr]
  · intro hw hsr hse hss hsrr
    simp [systemdInstall, systemdRollback, popSpawn, hsys, hf1, hf2, huser, hsl, hw, hsr, hse,
      hss, hsrr]
  · intro hw hsr hsrr
    simp [systemdInstall, systemdRollback, popSpawn, hsys, hf1, hf2, huser, hsl, hw, hsr, hsrr]
  · intro hw hsr
    by_cases hsrr : srr.code = 0 <;>
      simp [systemdInstall, systemdRollback, popSpawn, hsys, hf1, hf2, huser, hsl, hw, hsr, hsrr]

/-- C9: `prepareConfig` substitutes the default name `deno-service` for an
empty or missing `name` instead of rejecting the call, defaults `system` to
`false`, and falls back for `home` to `HOME` and then `userprofile`; a
forced-systemd generate call on such options consequently proceeds against
the path derived from `deno-service`. -/
theorem empty_name_defaults :
    ∀ (o : InstallOptionsIn) (u : UninstallOptionsIn) (w : World),
    ((o.name = none ∨ o.name = some []) →
      (prepareInstall o w).name = chars "deno-service") ∧
    (o.system = none → (prepareInstall o w).system = false) ∧
    (o.home = none → (prepareInstall o w).home = jsOr w.envHOME w.envUserprofile) ∧
    ((u.name = none ∨ u.name = some []) →
      (prepareUninstall u w).name = chars "deno-service") ∧
    ((o.name = none ∨ o.name = some []) → o.system = none →
      ∀ r, (installServiceTop o true (some (chars "systemd"))
          { w with fileExists := fun _ => false }).1 = Except.ok (some r) →
        r.servicePath = some (systemdUserPath (jsOr o.home (jsOr w.envHOME w.envUserprofile))
          (chars "deno-service"))) := by
  intro o u w
  refine ⟨?_, ?_, ?_, ?_, ?_⟩
  · intro h
    rcases h with h | h <;> simp [prepareInstall, jsOrStr, h]
  · intro h
    simp [prepareInstall, h]
  · intro h
    simp [prepareInstall, jsOr, jsTruthy, h]
  · intro h
    rcases h with h | h <;> simp [prepareUninstall, jsOrStr, h]
  · intro hn hsys r hr
    have hjt : jsTruthy (some (chars "systemd")) = true := rfl
    rcases hn with h | h <;>
      [skip; skip] <;>
      (simp_all [installServiceTop, hjt, interpOpt, dispatchInstall, lookupBackend,
        systemdInstall, prepareInstall, jsOrStr, mkInstallRes, hsys, Except.map]
       subst hr
       rfl)

/-- C10: in systemd user-mode uninstall the unit file is unlinked between the
`stop` spawn and the `daemon-reload` spawn; when either command exits
non-zero the call raises even though the file is already gone — the
resulting trace still contains the unlink, so the state is not unchanged on
error. -/
theorem user_uninstall_unlinks_before_status_check :
    ∀ (config : UninstallConfig) (w : World) (s1 s2 : SpawnResult) (rest : List SpawnResult),
    config.system = false →
    w.fileExists (systemdUserPath config.home config.name) = true →
    w.spawns = s1 :: s2 :: rest →
    ¬(s1.code = 0 ∧ s2.code = 0) →
    systemdUninstall config w =
      (Except.error (chars "Failed to uninstall service: Could not remove \x27" ++
        systemdUserPath config.home config.name ++
        chars "\x27. Error: \x27Could not remove the service.\x27"),
       [Event.spawnE [chars "systemctl", chars "--user", chars "stop", config.name],
        Event.unlinkE (systemdUserPath config.home config.name),
        Event.spawnE [chars "systemctl", chars "--user", chars "daemon-reload"]]) := by
  intro config w s1 s2 rest hsys hfe hw h
  simp [systemdUninstall, popSpawn, hsys, hfe, hw, h]

/-! ## Witnesses -/

/-- Caller-side install options used for witnesses. -/
def sampleInstallOptions : InstallOptionsIn :=
  { system := none, name := some (chars "test-service"), cmd := chars "run app.ts",
    user := some (chars "u"), home := some (chars "/home/u"), cwd := none,
    path := none, env := none }

/-- Caller-side uninstall options used for witnesses. -/
def sampleUninstallOptions : UninstallOptionsIn :=
  { system := none, name := some (chars "test-service"), home := some (chars "/home/u") }

/-- Install options with a missing name. -/
def emptyNameOptions : InstallOptionsIn :=
  { sampleInstallOptions with name := none }

/-- A world whose queued spawn results make the user-mode systemd install
fail at `enable` (stderr `eboom`) with a succeeding rollback reload. -/
def enableFailWorld : World :=
  { scenarioWorld with spawns := [
      { code := 0, stdout := [], stderr := [] },
      { code := 0, stdout := [], stderr := [] },
      { code := 1, stdout := [], stderr := chars "eboom" },
      { code := 0, stdout := [], stderr := [] } ] }

/-- An uninstall config for witnesses. -/
def uninstallCfg : UninstallConfig :=
  { system := false, name := chars "test-service", home := some (chars "/home/u") }

/-- A world where the user-mode unit exists and `systemctl --user stop` fails. -/
def stopFailWorld : World :=
  { scenarioWorld with
      fileExists := fun p =>
        p == systemdUserPath (some (chars "/home/u")) (chars "test-service"),
      spawns := [
        { code := 1, stdout := [], stderr := [] },
        { code := 0, stdout := [], stderr := [] } ] }

theorem content_only_when_checks_pass_witness :
    ∃ m, systemdInstall scenarioOptsUser true existsUserWorld = (Except.error m, []) :=
  (content_only_when_checks_pass scenarioOptsUser true existsUserWorld).1 (Or.inl rfl)

theorem already_exists_blocks_install_witness :
    systemdInstall scenarioOptsUser false existsUserWorld =
      (Except.error (sdExistsMsg (chars "test-service")
        (systemdUserPath (some (chars "/home/u")) (chars "test-service"))), []) ∨
    systemdInstall scenarioOptsUser false existsUserWorld =
      (Except.error (sdExistsMsg (chars "test-service")
        (systemdSystemPath (chars "test-service"))), []) :=
  (already_exists_blocks_install scenarioOptsUser false existsUserWorld).1 (Or.inl rfl)

theorem generate_mode_no_side_effects_witness :
    systemdInstall scenarioOptsUser true scenarioWorld =
      (Except.ok (mkInstallRes
        (some (systemdUserPath (some (chars "/home/u")) (chars "test-service")))
        (systemdGenerateConfig scenarioOptsUser scenarioWorld) ManualOut.nul), []) :=
  (generate_mode_no_side_effects scenarioOptsUser scenarioWorld).2.1 rfl rfl

theorem force_only_for_generate_and_uninstall_witness :
    installServiceTop sampleInstallOptions false (some (chars "systemd")) scenarioWorld =
      (Except.error (chars "Manually selecting an init system is not possible while installing."),
       []) :=
  (force_only_for_generate_and_uninstall sampleInstallOptions sampleUninstallOptions
    (chars "systemd") scenarioWorld (by decide)).1

theorem step_failure_rollback_behavior_witness :
    (systemdInstall scenarioOptsUser false enableFailWorld).1 =
      Except.error (chars "Failed to enable service, rolled back any changes. Error: \n" ++
        chars "eboom") :=
  ((step_failure_rollback_behavior scenarioOptsUser enableFailWorld
    { code := 0, stdout := [], stderr := [] }
    { code := 0, stdout := [], stderr := [] }
    { code := 1, stdout := [], stderr := chars "eboom" }
    { code := 0, stdout := [], stderr := [] }
    { code := 0, stdout := [], stderr := [] }
    rfl rfl rfl rfl rfl).2.1) rfl rfl (by decide) rfl

theorem env_entries_rendered_per_backend_witness :
    containsSub (chars "Environment=" ++ chars "A=B" ++ chars "\n")
      (systemdGenerateConfig (c7Opts [chars "A=B"]) scenarioWorld) = true :=
  ((env_entries_rendered_per_backend [chars "A=B"]).2 (by decide)).1.2 (chars "A=B") (by simp)

theorem empty_name_defaults_witness :
    (prepareInstall emptyNameOptions scenarioWorld).name = chars "deno-service" :=
  (empty_name_defaults emptyNameOptions sampleUninstallOptions scenarioWorld).1 (Or.inl rfl)

theorem user_uninstall_unlinks_before_status_check_witness :
    systemdUninstall uninstallCfg stopFailWorld =
      (Except.error (chars "Failed to uninstall service: Could not remove \x27" ++
        systemdUserPath (some (chars "/home/u")) (chars "test-service") ++
        chars "\x27. Error: \x27Could not remove the service.\x27"),
       [Event.spawnE [chars "systemctl", chars "--user", chars "stop", chars "test-service"],
        Event.unlinkE (systemdUserPath (some (chars "/home/u")) (chars "test-service")),
        Event.spawnE [chars "systemctl", chars "--user", chars "daemon-reload"]]) :=
  user_uninstall_unlinks_before_status_check uninstallCfg stopFailWorld
    { code := 1, stdout := [], stderr := [] } { code := 0, stdout := [], stderr := [] } []
    rfl rfl rfl (by decide)
